import Mathlib

/-
  Shallow embedding of src/nautilus.py: a CLI facade (class DescribeK8s)
  over a Kubernetes client.  External calls are modelled by explicit
  outcome parameters and by traces of issued calls; Python exceptions
  that escape a method are modelled as explicit `raised` results.
-/

namespace Nautilus

/-- Python str.lower restricted to the characters the program handles,
mapping Char.toLower over the characters of the string. -/
def pyLower (s : String) : String := String.mk (s.data.map Char.toLower)

/-- Python str.capitalize: first character uppercased, the rest lowercased. -/
def pyCapitalize (s : String) : String :=
  match s.data with
  | [] => ""
  | c :: cs => String.mk (c.toUpper :: cs.map Char.toLower)

/-- Rendering of an optional string inside a Python f-string: None prints as "None". -/
def pyStrOpt : Option String → String
  | none => "None"
  | some s => s

/-- Python truthiness of an optional string: None and the empty string are falsy. -/
def optTruthy : Option String → Bool
  | none => false
  | some s => s ≠ ""

/-- DescribeK8s.calculate_age (src/nautilus.py lines 243-255) on a nonnegative
timedelta given by its total number of seconds.  Python timedelta normalises
days = total / 86400 and seconds = total % 86400. -/
def calculate_age (totalSeconds : Nat) : String :=
  if 0 < totalSeconds / 86400 then toString (totalSeconds / 86400) ++ "d"
  else if totalSeconds % 86400 ≥ 3600 then
    toString (totalSeconds % 86400 / 3600) ++ "h"
  else if totalSeconds % 86400 ≥ 60 then
    toString (totalSeconds % 86400 / 60) ++ "m"
  else toString (totalSeconds % 86400) ++ "s"

example : calculate_age 90 = "1m" := by decide
example : calculate_age 3700 = "1h" := by decide
example : calculate_age 172800 = "2d" := by decide
example : calculate_age 30 = "30s" := by decide

/-- The mutable state of a DescribeK8s object: beyond the client handles,
the only field the methods read or write is self.namespace (here
currentNamespace, since namespace is a Lean keyword). -/
structure Inspector where
  currentNamespace : String
  deriving DecidableEq, Repr

/-- Attributes assigned on self by DescribeK8s.__init__ (lines 13-16).
No other method assigns a new attribute. -/
def initAttrs : List String := ["config", "namespace", "v1"]

/-- Python hasattr on a DescribeK8s instance. -/
def hasAttr (a : String) : Bool := initAttrs.contains a

/-- DescribeK8s.set_namespace (lines 18-20). -/
def set_namespace (_self : Inspector) (ns : String) : Inspector :=
  { currentNamespace := ns }

/-- DescribeK8s.switch_context (lines 152-165).  The known context names are
the result of config.list_kube_config_contexts; loadOk tells whether the
config.load_kube_config call for the requested context succeeds.  The result
records the state after the call, the returned Bool, the printed lines, and
the list of contexts that were loaded (the reloads actually performed). -/
def switch_context (self : Inspector) (contexts : List String)
    (context_name : String) (loadOk : Bool) :
    Inspector × Bool × List String × List String :=
  if context_name ∉ contexts then
    (self, false, ["Context " ++ context_name ++ " not found."], [])
  else if loadOk then
    (self, true, ["Switched to context " ++ context_name], [context_name])
  else
    (self, false, ["Error switching context: load failed"], [context_name])

/-- A document produced by yaml.safe_load_all: an empty document loads as
Python None; a mapping document has an optional kind field (doc.get) and
metadata.name is present or missing (a missing one makes the subscript
raise KeyError). -/
inductive YamlDoc where
  | empty
  | obj (kind : Option String) (metadataName : Option String)
  deriving DecidableEq, Repr

/-- Outcome of the external create call issued for one document (or for
DescribeK8s.create): success, or client.ApiException with a status code. -/
inductive CreateOutcome where
  | success
  | apiErr (status : Nat)
  deriving DecidableEq, Repr

/-- One externally visible step of the apply operation: an attempted create
call, an attempted patch call (each with the resource kind, the document
name and the target namespace), or a printed message. -/
inductive ApplyEvent where
  | createCall (kind name ns : String)
  | patchCall (kind name ns : String)
  | msg (s : String)
  deriving DecidableEq, Repr

/-- Result of DescribeK8s.apply: the events in order, and the message the
outer except-Exception handler prints when the whole operation aborts. -/
structure ApplyResult where
  events : List ApplyEvent
  errorMsg : Option String
  deriving DecidableEq, Repr

/-- The per-document loop of DescribeK8s.apply (lines 172-200), with the
outer except-Exception handler of lines 169/201-202.  Each document is
paired with the outcome its create call would have.  An empty document makes
doc.get raise AttributeError; a missing metadata.name raises KeyError; the
deployment branch reads self.apps_v1, an attribute __init__ never defined,
raising AttributeError; each of these is caught only by the outer handler,
which stops the loop. -/
def applyGo (ns : String) : List (YamlDoc × CreateOutcome) → ApplyResult
  | [] => { events := [], errorMsg := none }
  | (d, out) :: rest =>
    match d with
    | .empty =>
      { events := [],
        errorMsg := some "Error applying configuration: AttributeError: NoneType has no attribute get" }
    | .obj kindField nameField =>
      let kind := pyLower (kindField.getD "")
      match nameField with
      | none =>
        { events := [],
          errorMsg := some "Error applying configuration: KeyError: metadata" }
      | some name =>
        if kind = "deployment" then
          { events := [],
            errorMsg := some "Error applying configuration: AttributeError: DescribeK8s object has no attribute apps_v1" }
        else if kind = "service" ∨ kind = "pod" then
          let evs : List ApplyEvent :=
            match out with
            | .success =>
              [.createCall kind name ns,
               .msg (pyCapitalize kind ++ " " ++ name ++ " created.")]
            | .apiErr status =>
              if status = 409 then
                [.createCall kind name ns,
                 .patchCall kind name ns,
                 .msg (pyCapitalize kind ++ " " ++ name ++ " updated.")]
              else
                [.createCall kind name ns,
                 .msg ("Error applying " ++ kind ++ " " ++ name ++ ": ApiException")]
          let r := applyGo ns rest
          { events := evs ++ r.events, errorMsg := r.errorMsg }
        else
          let r := applyGo ns rest
          { events := .msg ("Unsupported resource kind: " ++ kind) :: r.events,
            errorMsg := r.errorMsg }

/-- The V1Deployment body built by DescribeK8s.create (lines 208-225):
replica count, label selector match labels, pod template labels, and the
pod template containers as (name, image) pairs. -/
structure DeploymentSpec where
  replicas : Option Int
  selectorMatchLabels : List (String × String)
  templateLabels : List (String × String)
  containers : List (String × Option String)
  deriving DecidableEq, Repr

/-- The V1Service body built by DescribeK8s.create (lines 229-235):
selector labels and port numbers. -/
structure ServiceSpec where
  selector : List (String × String)
  ports : List Int
  deriving DecidableEq, Repr

/-- The in-memory deployment spec built by the deployment branch of
DescribeK8s.create, before any API call is attempted. -/
def deploymentBody (name : String) (image : Option String)
    (replicas : Option Int) : DeploymentSpec :=
  { replicas := replicas,
    selectorMatchLabels := [("app", name)],
    templateLabels := [("app", name)],
    containers := [(name, image)] }

/-- The in-memory service spec built by the service branch of
DescribeK8s.create. -/
def serviceBody (name : String) : ServiceSpec :=
  { selector := [("app", name)], ports := [80] }

/-- An external call issued by DescribeK8s.create, with its target
namespace and body. -/
inductive CreateCall where
  | deploymentCreate (ns : String) (body : DeploymentSpec)
  | serviceCreate (ns : String) (body : ServiceSpec)
  deriving DecidableEq, Repr

/-- Result of DescribeK8s.create: either an exception propagated to the
caller, or a normal return; both carry the printed lines and the external
calls that were issued. -/
inductive CreateResult where
  | raised (exn : String) (printed : List String) (calls : List CreateCall)
  | ok (printed : List String) (calls : List CreateCall)
  deriving DecidableEq, Repr

/-- DescribeK8s.create (lines 204-241).  The namespace argument is
self.namespace; out is the outcome of the external create call when one is
issued.  The deployment branch builds its body and then reads
self.apps_v1 (line 226), an attribute __init__ never defines: the resulting
AttributeError is not a client.ApiException, so the except clause of line
240 does not catch it and it propagates to the caller before any call is
issued.  An ApiException from a create call is caught and printed. -/
def create (ns : String) (resource_type : String) (name : String)
    (image : Option String) (replicas : Option Int)
    (out : CreateOutcome) : CreateResult :=
  if pyLower resource_type = "deployment" then
    let _body := deploymentBody name image replicas
    .raised "AttributeError: DescribeK8s object has no attribute apps_v1" [] []
  else if pyLower resource_type = "service" then
    match out with
    | .success =>
      .ok ["Service " ++ name ++ " created."]
        [.serviceCreate ns (serviceBody name)]
    | .apiErr _ =>
      .ok ["Error creating " ++ resource_type ++ ": ApiException"]
        [.serviceCreate ns (serviceBody name)]
  else
    .ok ["Unsupported resource type: " ++ resource_type] []

/-- The external calls issued by a run of DescribeK8s.create, whether or
not it raised. -/
def CreateResult.calls : CreateResult → List CreateCall
  | .raised _ _ calls => calls
  | .ok _ calls => calls

/-- Whether a run of DescribeK8s.create let an exception escape to its
caller. -/
def CreateResult.didRaise : CreateResult → Bool
  | .raised _ _ _ => true
  | .ok _ _ => false

/-- The namespace an apply event targets (none for a printed message). -/
def ApplyEvent.targetNs : ApplyEvent → Option String
  | .createCall _ _ ns => some ns
  | .patchCall _ _ ns => some ns
  | .msg _ => none

/-- Whether an apply event is a create or patch call for kind deployment. -/
def ApplyEvent.forDeployment : ApplyEvent → Bool
  | .createCall k _ _ => k = "deployment"
  | .patchCall k _ _ => k = "deployment"
  | .msg _ => false

/-- The namespace a DescribeK8s.create call targets. -/
def CreateCall.targetNs : CreateCall → String
  | .deploymentCreate ns _ => ns
  | .serviceCreate ns _ => ns

/-- A pod item as read by list_pods. -/
structure PodItem where
  name : String
  phase : String
  pod_ip : Option String
  node_name : Option String
  deriving DecidableEq, Repr

/-- DescribeK8s.list_pods (lines 108-128): the first component is the
namespace passed to the external list_namespaced_pod call, the second the
printed lines. -/
def list_pods (ns : String) (pods : List PodItem) : String × List String :=
  (ns,
    ("Pods in namespace " ++ ns ++ ":") ::
      (pods.map fun p =>
        ["Name: " ++ p.name,
         "  Status: " ++ p.phase,
         "  IP: " ++ pyStrOpt p.pod_ip,
         "  Node: " ++ pyStrOpt p.node_name,
         "---"]).flatten)

/-- DescribeK8s.get_kube_dns_info (lines 35-41): the first component is the
namespace passed to list_namespaced_service; an ApiException is caught and
turned into None. -/
def get_kube_dns_info (ns : String) (out : CreateOutcome)
    (services : List String) : String × Option (List String) :=
  match out with
  | .success => (ns, some services)
  | .apiErr _ => (ns, none)

/-- The status sub-object of a namespace item; its phase may be absent. -/
structure NsStatus where
  phase : Option String
  deriving DecidableEq, Repr

/-- A namespace item as read by print_namespaces_info: its name, its status
object (which Python tests for truthiness, so it may be absent), and its
age in seconds (now minus metadata.creation_timestamp). -/
structure NamespaceItem where
  name : String
  status : Option NsStatus
  ageSeconds : Nat
  deriving DecidableEq, Repr

/-- The line printed for one namespace by print_namespaces_info (lines
102-105): the status column is Unknown when the status object is absent,
and otherwise the phase rendered by the f-string (None prints as "None"). -/
def namespaceLine (item : NamespaceItem) : String :=
  let statusCol :=
    match item.status with
    | none => "Unknown"
    | some st => pyStrOpt st.phase
  item.name ++ "\t" ++ statusCol ++ "\t" ++ calculate_age item.ageSeconds

/-- DescribeK8s.print_namespaces_info (lines 96-106): the header line, one
line per namespace, then a blank line.  The argument is the result of
get_all_namespaces, which is None after a listing error. -/
def print_namespaces_info (items : Option (List NamespaceItem)) : List String :=
  "NAMESPACE\tSTATUS\tAGE" :: ((items.getD []).map namespaceLine ++ [""])

/-- The parsed argparse namespace of main (lines 259-277).  String-valued
flags are None when absent; create holds the three nargs values. -/
structure Args where
  nsArg : Option String
  cluster_info : Bool
  api_versions : Bool
  nodes : Bool
  list_namespaces : Bool
  switchContextArg : Option String
  applyArg : Option String
  createArg : Option (String × String × String)
  replicas : Option Int
  list_pods : Bool
  deriving DecidableEq, Repr

/-- Args with every flag absent. -/
def noArgs : Args :=
  { nsArg := none, cluster_info := false, api_versions := false,
    nodes := false, list_namespaces := false, switchContextArg := none,
    applyArg := none, createArg := none, replicas := none,
    list_pods := false }

/-- A method invocation performed by main after constructing the facade. -/
inductive Action where
  | setNamespace (ns : String)
  | printClusterInfo
  | printApiVersions
  | printNodesInfo
  | printNamespacesInfo
  | switchContext (name : String)
  | applyFile (filename : String)
  | createResource (rt name image : String) (replicas : Option Int)
  | listPods
  | printHelp
  deriving DecidableEq, Repr

/-- Whether an action comes from the primary if/elif chain of main. -/
def Action.isPrimary : Action → Bool
  | .printClusterInfo | .printApiVersions | .printNodesInfo
  | .printNamespacesInfo | .switchContext _ | .applyFile _
  | .createResource _ _ _ _ => true
  | _ => false

/-- The if/elif chain of main (lines 288-302), selecting at most one
primary action.  String-valued flags are tested by Python truthiness. -/
def chainActions (args : Args) : List Action :=
  if args.cluster_info then [.printClusterInfo]
  else if args.api_versions then [.printApiVersions]
  else if args.nodes then [.printNodesInfo]
  else if args.list_namespaces then [.printNamespacesInfo]
  else if optTruthy args.switchContextArg then
    [.switchContext (args.switchContextArg.getD "")]
  else if optTruthy args.applyArg then [.applyFile (args.applyArg.getD "")]
  else
    match args.createArg with
    | some (rt, name, image) => [.createResource rt name image args.replicas]
    | none => []

/-- The body of main after argument parsing (lines 279-306): the optional
set_namespace, the if/elif chain, then the independent
if list_pods / else print_help. -/
def mainDispatch (args : Args) : List Action :=
  (if optTruthy args.nsArg then [.setNamespace (args.nsArg.getD "")] else [])
    ++ chainActions args
    ++ (if args.list_pods then [.listPods] else [.printHelp])

/-- The inspector constructed by main, after the optional set_namespace
call: DescribeK8s("default"), then set_namespace(args.namespace) exactly
when args.namespace is truthy. -/
def inspectorAfterArgs (args : Args) : Inspector :=
  let k8s_cluster : Inspector := { currentNamespace := "default" }
  if optTruthy args.nsArg then
    set_namespace k8s_cluster (args.nsArg.getD "")
  else k8s_cluster

/-- Processing of the document list distributes over append as long as the
first part does not abort. -/
lemma applyGo_append (ns : String) (pre rest : List (YamlDoc × CreateOutcome))
    (h : (applyGo ns pre).errorMsg = none) :
    applyGo ns (pre ++ rest) =
      { events := (applyGo ns pre).events ++ (applyGo ns rest).events,
        errorMsg := (applyGo ns rest).errorMsg } := by
  induction pre with
  | nil => simp [applyGo]
  | cons hd tl ih =>
    obtain ⟨d, out⟩ := hd
    cases d with
    | empty => simp [applyGo] at h
    | obj kf nf =>
      cases nf with
      | none => simp [applyGo] at h
      | some name =>
        by_cases hdep : pyLower (kf.getD "") = "deployment"
        · simp [applyGo, hdep] at h
        · by_cases hsp : pyLower (kf.getD "") = "service" ∨ pyLower (kf.getD "") = "pod"
          · simp only [applyGo, List.cons_append, hdep, if_false, hsp, if_true,
              List.append_eq] at h ⊢
            rw [ih h]
            simp [List.append_assoc]
          · simp only [applyGo, List.cons_append, hdep, if_false, hsp, if_true,
              List.append_eq] at h ⊢
            rw [ih h]

/-- Every event in an apply trace is a message, or a create/patch call that
targets the given namespace and a non-deployment kind. -/
lemma applyGo_events_shape (ns : String)
    (docs : List (YamlDoc × CreateOutcome)) :
    ∀ e ∈ (applyGo ns docs).events,
      e.forDeployment = false ∧ (e.targetNs = none ∨ e.targetNs = some ns) := by
  induction docs with
  | nil => simp [applyGo]
  | cons hd tl ih =>
    obtain ⟨d, out⟩ := hd
    cases d with
    | empty => simp [applyGo]
    | obj kf nf =>
      cases nf with
      | none => simp [applyGo]
      | some name =>
        by_cases hdep : pyLower (kf.getD "") = "deployment"
        · simp [applyGo, hdep]
        · by_cases hsp : pyLower (kf.getD "") = "service" ∨ pyLower (kf.getD "") = "pod"
          · intro e he
            simp only [applyGo, hdep, if_false, hsp, if_true, List.mem_append] at he
            rcases he with he | he
            · cases out with
              | success =>
                simp at he
                rcases he with he | he <;>
                  simp [he, ApplyEvent.forDeployment, ApplyEvent.targetNs, hdep]
              | apiErr status =>
                by_cases h409 : status = 409
                · simp [h409] at he
                  rcases he with he | he | he <;>
                    simp [he, ApplyEvent.forDeployment, ApplyEvent.targetNs, hdep]
                · simp [h409] at he
                  rcases he with he | he <;>
                    simp [he, ApplyEvent.forDeployment, ApplyEvent.targetNs, hdep]
            · exact ih e he
          · intro e he
            simp only [applyGo, hdep, if_false, hsp, if_true, List.mem_cons] at he
            rcases he with he | he
            · simp [he, ApplyEvent.forDeployment, ApplyEvent.targetNs]
            · exact ih e he

/-- The if/elif chain selects at most one action. -/
lemma chainActions_length (args : Args) : (chainActions args).length ≤ 1 := by
  unfold chainActions
  repeat' split
  all_goals first | decide | simp

/-- Every action the if/elif chain selects is a primary action. -/
lemma chainActions_primary (args : Args) :
    ∀ a ∈ chainActions args, a.isPrimary = true := by
  unfold chainActions
  repeat' split
  all_goals first | decide | simp [Action.isPrimary]

/- ----------------------------------------------------------------- -/
/- Claim theorems                                                    -/
/- ----------------------------------------------------------------- -/

/-- C2: calculate_age buckets an age into days, hours, minutes and seconds
with the first non-zero unit winning in that priority order; a creation
timestamp 90 seconds old yields 1m, 3700 seconds yields 1h, 2 days yields
2d and 30 seconds yields 30s. -/
theorem calculate_age_buckets :
    (calculate_age 90 = "1m" ∧ calculate_age 3700 = "1h" ∧
     calculate_age 172800 = "2d" ∧ calculate_age 30 = "30s") ∧
    (∀ s : Nat, 0 < s / 86400 →
       calculate_age s = toString (s / 86400) ++ "d") ∧
    (∀ s : Nat, s / 86400 = 0 → 0 < s % 86400 / 3600 →
       calculate_age s = toString (s % 86400 / 3600) ++ "h") ∧
    (∀ s : Nat, s / 86400 = 0 → s % 86400 / 3600 = 0 → 0 < s % 86400 / 60 →
       calculate_age s = toString (s % 86400 / 60) ++ "m") ∧
    (∀ s : Nat, s / 86400 = 0 → s % 86400 / 60 = 0 →
       calculate_age s = toString (s % 86400) ++ "s") := by
  refine ⟨⟨by decide, by decide, by decide, by decide⟩, ?_, ?_, ?_, ?_⟩
  · intro s hd
    unfold calculate_age
    rw [if_pos hd]
  · intro s hd hh
    unfold calculate_age
    rw [if_neg (by omega), if_pos (by omega)]
  · intro s hd hh hm
    unfold calculate_age
    rw [if_neg (by omega), if_neg (by omega), if_pos (by omega)]
  · intro s hd hm
    unfold calculate_age
    rw [if_neg (by omega), if_neg (by omega), if_neg (by omega)]

/-- Witness for C2 at concrete inputs in each bucket. -/
theorem calculate_age_buckets_witness :
    calculate_age 259200 = "3d" ∧ calculate_age 7200 = "2h" ∧
    calculate_age 150 = "2m" ∧ calculate_age 45 = "45s" :=
  ⟨(calculate_age_buckets.2.1 259200 (by decide)).trans (by decide),
   (calculate_age_buckets.2.2.1 7200 (by decide) (by decide)).trans (by decide),
   (calculate_age_buckets.2.2.2.1 150 (by decide) (by decide) (by decide)).trans
     (by decide),
   (calculate_age_buckets.2.2.2.2 45 (by decide) (by decide)).trans (by decide)⟩

/-- C5: for a context name absent from the known context list,
switch_context prints a not-found message, performs no reload, leaves the
inspector state unchanged and returns False; for a present name whose
reload succeeds, it reloads the configuration bound to that context and
returns True. -/
theorem switch_context_spec (self : Inspector) (contexts : List String)
    (name : String) (loadOk : Bool) :
    (name ∉ contexts →
       switch_context self contexts name loadOk =
         (self, false, ["Context " ++ name ++ " not found."], [])) ∧
    (name ∈ contexts → loadOk = true →
       switch_context self contexts name loadOk =
         (self, true, ["Switched to context " ++ name], [name])) := by
  constructor
  · intro h
    unfold switch_context
    rw [if_pos h]
  · intro h hl
    unfold switch_context
    rw [if_neg (not_not_intro h), hl, if_pos rfl]

/-- Witness for C5: an absent and a present context name. -/
theorem switch_context_spec_witness :
    switch_context { currentNamespace := "default" } ["dev", "prod"]
        "stage" true =
      ({ currentNamespace := "default" }, false,
        ["Context stage not found."], []) ∧
    switch_context { currentNamespace := "default" } ["dev", "prod"]
        "dev" true =
      ({ currentNamespace := "default" }, true,
        ["Switched to context dev"], ["dev"]) :=
  ⟨(switch_context_spec { currentNamespace := "default" } ["dev", "prod"]
      "stage" true).1 (by decide),
   (switch_context_spec { currentNamespace := "default" } ["dev", "prod"]
      "dev" true).2 (by decide) rfl⟩

/-- C6 counterexample: a namespace whose status object is present but whose
phase field is absent is printed with status column None, not Unknown. -/
theorem namespace_phase_absent_prints_none :
    namespaceLine
        { name := "ns1", status := some { phase := none }, ageSeconds := 30 } =
      "ns1\tNone\t30s" ∧
    namespaceLine
        { name := "ns1", status := some { phase := none }, ageSeconds := 30 } ≠
      "ns1\tUnknown\t30s" := by
  constructor
  · rfl
  · decide

/-- C6 amended: Unknown is printed exactly when the whole status object is
absent; when the status object is present its phase value is printed (a
missing phase rendering as None); each namespace yields one line of name,
status and computed age after the header line. -/
theorem print_namespaces_info_spec (items : List NamespaceItem) :
    print_namespaces_info (some items) =
      "NAMESPACE\tSTATUS\tAGE" :: (items.map namespaceLine ++ [""]) ∧
    (∀ item : NamespaceItem, item.status = none →
       namespaceLine item =
         item.name ++ "\t" ++ "Unknown" ++ "\t" ++
           calculate_age item.ageSeconds) ∧
    (∀ (item : NamespaceItem) (st : NsStatus) (p : String),
       item.status = some st → st.phase = some p →
       namespaceLine item =
         item.name ++ "\t" ++ p ++ "\t" ++ calculate_age item.ageSeconds) ∧
    (∀ (item : NamespaceItem) (st : NsStatus),
       item.status = some st → st.phase = none →
       namespaceLine item =
         item.name ++ "\t" ++ "None" ++ "\t" ++
           calculate_age item.ageSeconds) := by
  refine ⟨rfl, ?_, ?_, ?_⟩
  · intro item h
    simp [namespaceLine, h]
  · intro item st p hst hp
    simp [namespaceLine, hst, hp, pyStrOpt]
  · intro item st hst hp
    simp [namespaceLine, hst, hp, pyStrOpt]

/-- Witness for C6 amended at a concrete listing with all three status
shapes. -/
theorem print_namespaces_info_spec_witness :
    print_namespaces_info
        (some [{ name := "a", status := none, ageSeconds := 30 }]) =
      ["NAMESPACE\tSTATUS\tAGE", "a\tUnknown\t30s", ""] ∧
    namespaceLine { name := "a", status := none, ageSeconds := 30 } =
      "a\tUnknown\t30s" ∧
    namespaceLine
        { name := "b", status := some { phase := some "Active" },
          ageSeconds := 90 } =
      "b\tActive\t1m" ∧
    namespaceLine
        { name := "c", status := some { phase := none }, ageSeconds := 45 } =
      "c\tNone\t45s" :=
  ⟨((print_namespaces_info_spec
        [{ name := "a", status := none, ageSeconds := 30 }]).1).trans
      (by decide),
   ((print_namespaces_info_spec
        [{ name := "a", status := none, ageSeconds := 30 }]).2.1
      { name := "a", status := none, ageSeconds := 30 } rfl).trans (by decide),
   ((print_namespaces_info_spec []).2.2.1
      { name := "b", status := some { phase := some "Active" },
        ageSeconds := 90 } { phase := some "Active" } "Active" rfl rfl).trans
     (by decide),
   ((print_namespaces_info_spec []).2.2.2
      { name := "c", status := some { phase := none }, ageSeconds := 45 }
      { phase := none } rfl rfl).trans (by decide)⟩

/-- C4 counterexample: with only the nodes flag supplied, main runs the
nodes action and then, because list_pods is not set, the final else branch
also prints help. -/
theorem main_dispatch_prints_help_after_action :
    mainDispatch { noArgs with nodes := true } =
      [Action.printNodesInfo, Action.printHelp] ∧
    Action.printHelp ∈ mainDispatch { noArgs with nodes := true } := by
  constructor
  · rfl
  · decide

/-- C4 amended: main selects at most one primary action via the if/elif
chain; with no flags, help alone is printed; since list_pods is checked
independently with an else that prints help, help is printed exactly when
list_pods is absent, even when a primary action flag was supplied; the
pods listing runs exactly when list_pods is supplied. -/
theorem main_dispatch_spec (args : Args) :
    ((chainActions args).length ≤ 1 ∧
     ∀ a ∈ chainActions args, a.isPrimary = true) ∧
    mainDispatch noArgs = [Action.printHelp] ∧
    (args.list_pods = false →
       Action.printHelp ∈ mainDispatch args ∧
       Action.listPods ∉ mainDispatch args) ∧
    (args.list_pods = true →
       Action.listPods ∈ mainDispatch args ∧
       Action.printHelp ∉ mainDispatch args) := by
  refine ⟨⟨chainActions_length args, chainActions_primary args⟩, rfl, ?_, ?_⟩
  · intro h
    constructor
    · simp [mainDispatch, h]
    · intro hmem
      simp only [mainDispatch, h, if_false, List.mem_append, List.mem_cons] at hmem
      rcases hmem with (hmem | hmem) | hmem
      · by_cases ht : optTruthy args.nsArg <;> simp [ht] at hmem
      · have := chainActions_primary args _ hmem
        simp [Action.isPrimary] at this
      · simp at hmem
  · intro h
    constructor
    · simp [mainDispatch, h]
    · intro hmem
      simp only [mainDispatch, h, if_true, List.mem_append, List.mem_cons] at hmem
      rcases hmem with (hmem | hmem) | hmem
      · by_cases ht : optTruthy args.nsArg <;> simp [ht] at hmem
      · have := chainActions_primary args _ hmem
        simp [Action.isPrimary] at this
      · simp at hmem

/-- Witness for C4 amended with the pods flag set and unset. -/
theorem main_dispatch_spec_witness :
    (Action.printHelp ∈ mainDispatch { noArgs with nodes := true } ∧
     Action.listPods ∉ mainDispatch { noArgs with nodes := true }) ∧
    (Action.listPods ∈ mainDispatch { noArgs with list_pods := true } ∧
     Action.printHelp ∉ mainDispatch { noArgs with list_pods := true }) :=
  ⟨(main_dispatch_spec { noArgs with nodes := true }).2.2.1 rfl,
   (main_dispatch_spec { noArgs with list_pods := true }).2.2.2 rfl⟩

/-- C3 counterexample: a document of kind deployment causes no create call
at all; reading the undefined apps_v1 attribute aborts the whole apply. -/
theorem apply_deployment_issues_no_create :
    (applyGo "default"
        [(YamlDoc.obj (some "Deployment") (some "web"),
          CreateOutcome.success)]).events = [] ∧
    (applyGo "default"
        [(YamlDoc.obj (some "Deployment") (some "web"),
          CreateOutcome.success)]).errorMsg ≠ none := by
  constructor
  · decide
  · decide

/-- C3 amended: each document is dispatched by its lowercased kind; for
kind service or pod a create call is issued, a 409 conflict on that create
issues exactly one patch for the same name and namespace, another
ApiException status prints an error, and in each case processing continues;
kinds outside deployment/service/pod are skipped with a message and
processing continues; a document of kind deployment aborts the entire
apply with no create call, because the deployment branch reads the
undefined apps_v1 attribute; two service documents with the same name
where the second create conflicts yield one create for the first and one
create plus one patch for the second. -/
theorem apply_dispatch_spec (ns k name : String) (status : Nat)
    (rest : List (YamlDoc × CreateOutcome)) :
    (pyLower k = "service" ∨ pyLower k = "pod" →
       applyGo ns ((YamlDoc.obj (some k) (some name),
           CreateOutcome.success) :: rest) =
         { events :=
             [ApplyEvent.createCall (pyLower k) name ns,
              ApplyEvent.msg (pyCapitalize (pyLower k) ++ " " ++ name ++
                " created.")] ++ (applyGo ns rest).events,
           errorMsg := (applyGo ns rest).errorMsg }) ∧
    (pyLower k = "service" ∨ pyLower k = "pod" →
       applyGo ns ((YamlDoc.obj (some k) (some name),
           CreateOutcome.apiErr 409) :: rest) =
         { events :=
             [ApplyEvent.createCall (pyLower k) name ns,
              ApplyEvent.patchCall (pyLower k) name ns,
              ApplyEvent.msg (pyCapitalize (pyLower k) ++ " " ++ name ++
                " updated.")] ++ (applyGo ns rest).events,
           errorMsg := (applyGo ns rest).errorMsg }) ∧
    (pyLower k = "service" ∨ pyLower k = "pod" → status ≠ 409 →
       applyGo ns ((YamlDoc.obj (some k) (some name),
           CreateOutcome.apiErr status) :: rest) =
         { events :=
             [ApplyEvent.createCall (pyLower k) name ns,
              ApplyEvent.msg ("Error applying " ++ pyLower k ++ " " ++
                name ++ ": ApiException")] ++ (applyGo ns rest).events,
           errorMsg := (applyGo ns rest).errorMsg }) ∧
    (pyLower k ≠ "deployment" → pyLower k ≠ "service" → pyLower k ≠ "pod" →
       ∀ out, applyGo ns ((YamlDoc.obj (some k) (some name), out) :: rest) =
         { events :=
             ApplyEvent.msg ("Unsupported resource kind: " ++ pyLower k) ::
               (applyGo ns rest).events,
           errorMsg := (applyGo ns rest).errorMsg }) ∧
    (pyLower k = "deployment" →
       ∀ out, applyGo ns ((YamlDoc.obj (some k) (some name), out) :: rest) =
         { events := [],
           errorMsg := some "Error applying configuration: AttributeError: DescribeK8s object has no attribute apps_v1" }) ∧
    applyGo "default"
        [(YamlDoc.obj (some "Service") (some "svc"), CreateOutcome.success),
         (YamlDoc.obj (some "Service") (some "svc"),
           CreateOutcome.apiErr 409)] =
      { events :=
          [ApplyEvent.createCall "service" "svc" "default",
           ApplyEvent.msg "Service svc created.",
           ApplyEvent.createCall "service" "svc" "default",
           ApplyEvent.patchCall "service" "svc" "default",
           ApplyEvent.msg "Service svc updated."],
        errorMsg := none } := by
  refine ⟨?_, ?_, ?_, ?_, ?_, by decide⟩
  · intro hsp
    rcases hsp with h | h <;> simp [applyGo, h]
  · intro hsp
    rcases hsp with h | h <;> simp [applyGo, h]
  · intro hsp h409
    rcases hsp with h | h <;> simp [applyGo, h, h409]
  · intro hd hs hp out
    simp [applyGo, hd, hs, hp]
  · intro hd out
    simp [applyGo, hd]

/-- Witness for C3 amended on concrete service, pod, unsupported and
deployment documents. -/
theorem apply_dispatch_spec_witness :
    applyGo "default"
        [(YamlDoc.obj (some "Service") (some "svc"),
          CreateOutcome.success)] =
      { events :=
          [ApplyEvent.createCall "service" "svc" "default",
           ApplyEvent.msg "Service svc created."],
        errorMsg := none } ∧
    applyGo "ns2"
        [(YamlDoc.obj (some "Pod") (some "p1"),
          CreateOutcome.apiErr 409)] =
      { events :=
          [ApplyEvent.createCall "pod" "p1" "ns2",
           ApplyEvent.patchCall "pod" "p1" "ns2",
           ApplyEvent.msg "Pod p1 updated."],
        errorMsg := none } ∧
    applyGo "default"
        [(YamlDoc.obj (some "ConfigMap") (some "cm"),
          CreateOutcome.success)] =
      { events := [ApplyEvent.msg "Unsupported resource kind: configmap"],
        errorMsg := none } ∧
    applyGo "default"
        [(YamlDoc.obj (some "Deployment") (some "web"),
          CreateOutcome.success)] =
      { events := [],
        errorMsg := some "Error applying configuration: AttributeError: DescribeK8s object has no attribute apps_v1" } :=
  ⟨((apply_dispatch_spec "default" "Service" "svc" 0 []).1
      (Or.inl (by decide))).trans (by decide),
   ((apply_dispatch_spec "ns2" "Pod" "p1" 0 []).2.1
      (Or.inr (by decide))).trans (by decide),
   ((apply_dispatch_spec "default" "ConfigMap" "cm" 0 []).2.2.2.1
      (by decide) (by decide) (by decide) CreateOutcome.success).trans
     (by decide),
   (apply_dispatch_spec "default" "Deployment" "web" 0 []).2.2.2.2.1
     (by decide) CreateOutcome.success⟩

/-- C9: apply is not atomic across documents; an empty document or one
without metadata.name aborts the whole operation there with a single error
message, that document and all later documents contribute no calls, and
the calls already issued for earlier documents stand. -/
theorem apply_not_atomic (ns : String)
    (pre rest : List (YamlDoc × CreateOutcome)) (bad : YamlDoc × CreateOutcome)
    (hpre : (applyGo ns pre).errorMsg = none)
    (hbad : bad.1 = YamlDoc.empty ∨ ∃ k, bad.1 = YamlDoc.obj k none) :
    (applyGo ns (pre ++ bad :: rest)).events = (applyGo ns pre).events ∧
    ∃ m, (applyGo ns (pre ++ bad :: rest)).errorMsg = some m := by
  obtain ⟨d, out⟩ := bad
  have hstep : applyGo ns ((d, out) :: rest) =
      { events := [],
        errorMsg := (applyGo ns ((d, out) :: rest)).errorMsg } ∧
      ∃ m, (applyGo ns ((d, out) :: rest)).errorMsg = some m := by
    rcases hbad with hb | ⟨kf, hb⟩ <;> simp at hb <;> subst hb <;>
      simp [applyGo]
  rw [applyGo_append ns pre ((d, out) :: rest) hpre]
  constructor
  · rw [hstep.1]
    simp
  · obtain ⟨m, hm⟩ := hstep.2
    exact ⟨m, hm⟩

/-- Witness for C9: a successfully created service followed by an empty
document and a further service document; only the first create survives. -/
theorem apply_not_atomic_witness :
    (applyGo "default"
        ([(YamlDoc.obj (some "Service") (some "svc"),
            CreateOutcome.success)] ++
          (YamlDoc.empty, CreateOutcome.success) ::
            [(YamlDoc.obj (some "Service") (some "svc2"),
              CreateOutcome.success)])).events =
      [ApplyEvent.createCall "service" "svc" "default",
       ApplyEvent.msg "Service svc created."] ∧
    ∃ m, (applyGo "default"
        ([(YamlDoc.obj (some "Service") (some "svc"),
            CreateOutcome.success)] ++
          (YamlDoc.empty, CreateOutcome.success) ::
            [(YamlDoc.obj (some "Service") (some "svc2"),
              CreateOutcome.success)])).errorMsg = some m := by
  have h := apply_not_atomic "default"
    [(YamlDoc.obj (some "Service") (some "svc"), CreateOutcome.success)]
    [(YamlDoc.obj (some "Service") (some "svc2"), CreateOutcome.success)]
    (YamlDoc.empty, CreateOutcome.success) (by decide) (Or.inl rfl)
  exact ⟨h.1.trans (by decide), h.2⟩

/-- C8: __init__ never defines the apps_v1 attribute, so every
deployment-kind path raises AttributeError before any create call is
issued: create with a deployment resource type raises with no call, a
deployment document makes apply abort with no call, and no apply trace
ever contains a deployment create or patch. -/
theorem apps_v1_never_defined :
    hasAttr "apps_v1" = false ∧
    (∀ (ns rt name : String) (image : Option String) (replicas : Option Int)
       (out : CreateOutcome), pyLower rt = "deployment" →
       create ns rt name image replicas out =
         CreateResult.raised
           "AttributeError: DescribeK8s object has no attribute apps_v1"
           [] []) ∧
    (∀ (ns k name : String) (out : CreateOutcome)
       (rest : List (YamlDoc × CreateOutcome)), pyLower k = "deployment" →
       applyGo ns ((YamlDoc.obj (some k) (some name), out) :: rest) =
         { events := [],
           errorMsg := some "Error applying configuration: AttributeError: DescribeK8s object has no attribute apps_v1" }) ∧
    (∀ (ns : String) (docs : List (YamlDoc × CreateOutcome)),
       ∀ e ∈ (applyGo ns docs).events, e.forDeployment = false) := by
  refine ⟨rfl, ?_, ?_, ?_⟩
  · intro ns rt name image replicas out h
    simp [create, h]
  · intro ns k name out rest h
    simp [applyGo, h]
  · intro ns docs e he
    exact (applyGo_events_shape ns docs e he).1

/-- Witness for C8 on a concrete create and a concrete apply document. -/
theorem apps_v1_never_defined_witness :
    create "default" "deployment" "web" (some "nginx") (some 3)
        CreateOutcome.success =
      CreateResult.raised
        "AttributeError: DescribeK8s object has no attribute apps_v1" [] [] ∧
    applyGo "default"
        [(YamlDoc.obj (some "Deployment") (some "web"),
          CreateOutcome.success)] =
      { events := [],
        errorMsg := some "Error applying configuration: AttributeError: DescribeK8s object has no attribute apps_v1" } :=
  ⟨apps_v1_never_defined.2.1 "default" "deployment" "web" (some "nginx")
     (some 3) CreateOutcome.success (by decide),
   apps_v1_never_defined.2.2.1 "default" "Deployment" "web"
     CreateOutcome.success [] (by decide)⟩

/-- C1 counterexample: create with resource type deployment lets an
AttributeError escape to its caller, because the except clause only
catches client.ApiException. -/
theorem create_deployment_raises_to_caller :
    create "default" "deployment" "web" (some "nginx") (some 3)
        CreateOutcome.success =
      CreateResult.raised
        "AttributeError: DescribeK8s object has no attribute apps_v1" [] [] ∧
    (create "default" "deployment" "web" (some "nginx") (some 3)
        CreateOutcome.success).didRaise = true := by
  constructor
  · decide
  · decide

/-- C1 amended: ApiException failures of external calls are caught at the
call site, printed, and turned into a None/False/no-op result, and apply
catches every exception at whole-operation granularity, but create raises
AttributeError to its caller whenever the resource type lowercases to
deployment (apps_v1 is undefined); for other resource types create never
raises, a service-create ApiException is caught and printed, and
switch_context converts a failed reload into False with a printed error. -/
theorem error_containment_spec (ns rt name : String) (image : Option String)
    (replicas : Option Int) (out : CreateOutcome) (status : Nat)
    (self : Inspector) (contexts : List String) (cname : String) :
    (pyLower rt ≠ "deployment" →
       (create ns rt name image replicas out).didRaise = false) ∧
    (pyLower rt = "deployment" →
       (create ns rt name image replicas out).didRaise = true) ∧
    (pyLower rt = "service" →
       create ns rt name image replicas (CreateOutcome.apiErr status) =
         CreateResult.ok ["Error creating " ++ rt ++ ": ApiException"]
           [CreateCall.serviceCreate ns (serviceBody name)]) ∧
    (cname ∈ contexts →
       switch_context self contexts cname false =
         (self, false, ["Error switching context: load failed"], [cname])) ∧
    (get_kube_dns_info ns (CreateOutcome.apiErr status) []).2 = none := by
  refine ⟨?_, ?_, ?_, ?_, rfl⟩
  · intro h
    unfold create
    rw [if_neg h]
    by_cases hs : pyLower rt = "service"
    · rw [if_pos hs]
      cases out <;> rfl
    · rw [if_neg hs]
      rfl
  · intro h
    unfold create
    rw [if_pos h]
    rfl
  · intro h
    unfold create
    rw [if_neg (by rw [h]; decide), if_pos h]
  · intro h
    unfold switch_context
    rw [if_neg (not_not_intro h)]
    rfl

/-- Witness for C1 amended on concrete service and unsupported types. -/
theorem error_containment_spec_witness :
    (create "default" "service" "web" none none
        CreateOutcome.success).didRaise = false ∧
    (create "default" "deployment" "web" none none
        CreateOutcome.success).didRaise = true ∧
    create "default" "service" "web" none none (CreateOutcome.apiErr 500) =
      CreateResult.ok ["Error creating service: ApiException"]
        [CreateCall.serviceCreate "default" (serviceBody "web")] ∧
    switch_context { currentNamespace := "default" } ["dev"] "dev" false =
      ({ currentNamespace := "default" }, false,
        ["Error switching context: load failed"], ["dev"]) :=
  ⟨(error_containment_spec "default" "service" "web" none none
      CreateOutcome.success 0 { currentNamespace := "default" } [] "x").1
     (by decide),
   (error_containment_spec "default" "deployment" "web" none none
      CreateOutcome.success 0 { currentNamespace := "default" } [] "x").2.1
     (by decide),
   ((error_containment_spec "default" "service" "web" none none
      CreateOutcome.success 500 { currentNamespace := "default" } []
      "x").2.2.1 (by decide)).trans (by decide),
   (error_containment_spec "default" "x" "x" none none
      CreateOutcome.success 0 { currentNamespace := "default" } ["dev"]
      "dev").2.2.2.1 (by decide)⟩

/-- C7 counterexample: create with resource type deployment issues no
create call at all. -/
theorem create_deployment_issues_no_call :
    (create "default" "deployment" "web" (some "nginx") (some 3)
        CreateOutcome.success).calls = [] := by
  decide

/-- C7 amended: the deployment branch of create builds an in-memory spec
with the given replica count, selector and template labels app: name and a
single container of the given name and image, but then raises
AttributeError on the undefined apps_v1 attribute without issuing the
create call; a service build has selector app: name and the single port 80
and its create call is issued; any other resource type is reported
unsupported with no call. -/
theorem create_spec (ns rt name : String) (image : Option String)
    (replicas : Option Int) (out : CreateOutcome) :
    deploymentBody name image replicas =
      { replicas := replicas,
        selectorMatchLabels := [("app", name)],
        templateLabels := [("app", name)],
        containers := [(name, image)] } ∧
    (pyLower rt = "deployment" →
       (create ns rt name image replicas out).calls = [] ∧
       (create ns rt name image replicas out).didRaise = true) ∧
    (pyLower rt = "service" →
       create ns rt name image replicas CreateOutcome.success =
         CreateResult.ok ["Service " ++ name ++ " created."]
           [CreateCall.serviceCreate ns
             { selector := [("app", name)], ports := [80] }]) ∧
    (pyLower rt ≠ "deployment" → pyLower rt ≠ "service" →
       create ns rt name image replicas out =
         CreateResult.ok ["Unsupported resource type: " ++ rt] []) := by
  refine ⟨rfl, ?_, ?_, ?_⟩
  · intro h
    simp [create, h, CreateResult.calls, CreateResult.didRaise]
  · intro h
    unfold create
    rw [if_neg (by rw [h]; decide), if_pos h]
    rfl
  · intro hd hs
    unfold create
    rw [if_neg hd, if_neg hs]

/-- Witness for C7 amended on a concrete deployment, service and
unsupported type. -/
theorem create_spec_witness :
    deploymentBody "web" (some "nginx") (some 3) =
      { replicas := some 3,
        selectorMatchLabels := [("app", "web")],
        templateLabels := [("app", "web")],
        containers := [("web", some "nginx")] } ∧
    (create "default" "deployment" "web" (some "nginx") (some 3)
        CreateOutcome.success).calls = [] ∧
    create "default" "service" "web" none none CreateOutcome.success =
      CreateResult.ok ["Service web created."]
        [CreateCall.serviceCreate "default"
          { selector := [("app", "web")], ports := [80] }] ∧
    create "default" "configmap" "cm" none none CreateOutcome.success =
      CreateResult.ok ["Unsupported resource type: configmap"] [] :=
  ⟨(create_spec "default" "deployment" "web" (some "nginx") (some 3)
      CreateOutcome.success).1,
   ((create_spec "default" "deployment" "web" (some "nginx") (some 3)
      CreateOutcome.success).2.1 (by decide)).1,
   (create_spec "default" "service" "web" none none
      CreateOutcome.success).2.2.1 (by decide),
   (create_spec "default" "configmap" "cm" none none
      CreateOutcome.success).2.2.2 (by decide) (by decide)⟩

/-- C10 counterexample: supplying the namespace argument with the empty
string does not overwrite the field; Python truthiness leaves it at
default. -/
theorem namespace_empty_arg_not_overwritten :
    (inspectorAfterArgs { noArgs with nsArg := some "" }).currentNamespace =
      "default" ∧
    ("default" : String) ≠ "" := by
  constructor
  · rfl
  · decide

/-- C10 amended: the namespace field starts as default and is overwritten
with the namespace argument exactly when that argument is supplied with a
non-empty value; set_namespace is the only state change, switch_context
leaves the inspector untouched, and every namespaced external call of
apply, create, list_pods and the service listing targets exactly the
value of this field. -/
theorem namespace_field_spec (args : Args) (s : String) (self : Inspector)
    (contexts : List String) (cname : String) (loadOk : Bool) (ns : String)
    (docs : List (YamlDoc × CreateOutcome)) (rt name : String)
    (image : Option String) (replicas : Option Int) (out : CreateOutcome)
    (pods : List PodItem) (services : List String) :
    (optTruthy args.nsArg = false →
       (inspectorAfterArgs args).currentNamespace = "default") ∧
    (args.nsArg = some s → s ≠ "" →
       (inspectorAfterArgs args).currentNamespace = s) ∧
    (∀ (self2 : Inspector) (ns2 : String),
       (set_namespace self2 ns2).currentNamespace = ns2) ∧
    (switch_context self contexts cname loadOk).1 = self ∧
    (∀ e ∈ (applyGo ns docs).events,
       e.targetNs = none ∨ e.targetNs = some ns) ∧
    (∀ c ∈ (create ns rt name image replicas out).calls,
       c.targetNs = ns) ∧
    (list_pods ns pods).1 = ns ∧
    (get_kube_dns_info ns out services).1 = ns := by
  refine ⟨?_, ?_, ?_, ?_, ?_, ?_, rfl, ?_⟩
  · intro h
    simp [inspectorAfterArgs, h]
  · intro h hs
    simp [inspectorAfterArgs, h, optTruthy, hs, set_namespace]
  · intro self2 ns2
    rfl
  · unfold switch_context
    repeat' split
    all_goals rfl
  · intro e he
    exact (applyGo_events_shape ns docs e he).2
  · intro c hc
    unfold create at hc
    by_cases hd : pyLower rt = "deployment"
    · rw [if_pos hd] at hc
      simp [CreateResult.calls] at hc
    · rw [if_neg hd] at hc
      by_cases hs : pyLower rt = "service"
      · rw [if_pos hs] at hc
        cases out <;> simp [CreateResult.calls] at hc <;>
          simp [hc, CreateCall.targetNs]
      · rw [if_neg hs] at hc
        simp [CreateResult.calls] at hc
  · cases out <;> rfl

/-- Witness for C10 amended at concrete arguments and a concrete apply. -/
theorem namespace_field_spec_witness :
    (inspectorAfterArgs noArgs).currentNamespace = "default" ∧
    (inspectorAfterArgs { noArgs with nsArg := some "team-a" }).currentNamespace
      = "team-a" ∧
    (∀ e ∈ (applyGo "team-a"
        [(YamlDoc.obj (some "Service") (some "svc"),
          CreateOutcome.success)]).events,
       e.targetNs = none ∨ e.targetNs = some "team-a") :=
  ⟨(namespace_field_spec noArgs "x" { currentNamespace := "d" } [] "c" true
      "n" [] "r" "m" none none CreateOutcome.success [] []).1 rfl,
   (namespace_field_spec { noArgs with nsArg := some "team-a" } "team-a"
      { currentNamespace := "d" } [] "c" true "n" [] "r" "m" none none
      CreateOutcome.success [] []).2.1 rfl (by decide),
   (namespace_field_spec noArgs "x" { currentNamespace := "d" } [] "c" true
      "team-a" [(YamlDoc.obj (some "Service") (some "svc"),
        CreateOutcome.success)] "r" "m" none none CreateOutcome.success []
      []).2.2.2.2.1⟩

end Nautilus
